import Mathlib

/-!
Verification of the pia VPN front-end (wijjo/pia).

This file gives a shallow embedding, in Lean, of the parts of the program
that the specification claims talk about:

* `lib/provider.py`  — `Tool.select_servers`, `Tool.get_vpn_data`,
  `Tool.start_firewall`, `Tool.openvpn_servers`;
* `lib/firewall.py`  — `reset`, `start`, `forward_port`, `enable_lan`;
* `lib/pia.py`       — `PIAProvider.get_forwarded_port`,
  `PIAProvider.get_servers`;
* `lib/tools.py`     — `PersistentJSONData`, `test_server_latency` sentinel;
* `commands.d/start.py` — `execute` (the candidate loop);
* `lib/command.py`   — the sub-command cleanup dispatch.

External effects (process launches, file reads, the packet-filter binary,
the HTTP endpoint) are modelled as environment inputs and as an emitted
event trace.  Python exceptions and `sys.exit` are modelled with an
explicit error type.  Each definition is annotated with the source lines
it embeds.
-/

/-- Python-level failure outcomes.  `fatalExit` models `tools.error(...,
fatal_error=True)` which prints and calls `sys.exit`; the other
constructors model raised exceptions that propagate out of the program. -/
inductive PyError where
  | typeError (msg : String)
  | attributeError (msg : String)
  | unboundLocalError (name : String)
  | nameError (name : String)
  | valueError (msg : String)
  | fatalExit (msg : String)
deriving DecidableEq, Repr

/-- JSON values, for the forwarding endpoint response and the persisted
state file (`lib/tools.py` uses `json.loads` / `json.dumps`).  The subset
actually exchanged by the program: null, booleans, numbers, strings, and
lists of strings (the persisted `recent_servers` value). -/
inductive JVal where
  | jnull
  | jbool (b : Bool)
  | jnum (n : Int)
  | jstr (s : String)
  | jstrs (xs : List String)
deriving DecidableEq, Repr

/-- Decidable equality for `Except` results, so that concrete runs can be
checked by `decide`. -/
instance {e a : Type} [DecidableEq e] [DecidableEq a] : DecidableEq (Except e a) :=
  fun x y =>
    match x, y with
    | .error e1, .error e2 =>
      if h : e1 = e2 then isTrue (congrArg Except.error h)
      else isFalse (fun hc => h (Except.error.inj hc))
    | .ok v1, .ok v2 =>
      if h : v1 = v2 then isTrue (congrArg Except.ok h)
      else isFalse (fun hc => h (Except.ok.inj hc))
    | .error _, .ok _ => isFalse (fun hc => Except.noConfusion hc)
    | .ok _, .error _ => isFalse (fun hc => Except.noConfusion hc)

/-- An OpenVPN server record, from `lib/openvpn.py` (`class Server`):
`name`, `config_path`, `protocols` (list, first protocol at creation),
`port_forwarding`, `recent_order`, and `latency` defaulting to the
sentinel `99999999`. -/
structure Server where
  name : String
  config_path : String
  protocols : List String
  port_forwarding : Bool
  recent_order : Nat
  latency : Nat := 99999999
deriving DecidableEq, Repr

/-- The sentinel latency value used by `lib/openvpn.py` (`self.latency =
99999999`) and returned by `tools.test_server_latency` on ping failure. -/
def latencySentinel : Nat := 99999999

namespace Select

/-- Ascending comparison on `recent_order`, the sort key of the `recent`
discipline (`sorted(..., key=lambda server: server.recent_order)`). -/
def recentLe (a b : Server) : Prop := a.recent_order ≤ b.recent_order

/-- Descending comparison on `recent_order`, the sort key with
`reverse=True` of the `rotation` discipline. -/
def recentGe (a b : Server) : Prop := b.recent_order ≤ a.recent_order

instance : DecidableRel recentLe := fun x y => Nat.decLe x.recent_order y.recent_order
instance : DecidableRel recentGe := fun x y => Nat.decLe y.recent_order x.recent_order
instance : IsTotal Server recentLe := ⟨fun x y => Nat.le_total x.recent_order y.recent_order⟩
instance : IsTrans Server recentLe := ⟨fun _ _ _ => Nat.le_trans⟩
instance : IsTotal Server recentGe := ⟨fun x y => Nat.le_total y.recent_order x.recent_order⟩
instance : IsTrans Server recentGe := ⟨fun _ _ _ h h2 => Nat.le_trans h2 h⟩

/-- ASCII lowercasing of one character, as `str.lower()` does on the
ASCII discipline names the program deals in. -/
def lowerChar (c : Char) : Char :=
  if c.toNat ≥ 65 ∧ c.toNat ≤ 90 then Char.ofNat (c.toNat + 32) else c

/-- `str.lower()` on ASCII strings: lowercase every character. -/
def pyLower (s : String) : String := String.mk (s.data.map lowerChar)

/-- The discipline normalisation performed at the top of
`Tool.select_servers`: `(server_config.discipline or 'first').lower()`.
A missing value and the empty string (both falsy in Python) default to
`'first'`; the result is lowercased. -/
def normDiscipline (d : Option String) : String :=
  pyLower (match d with
   | none => "first"
   | some s => if s = "" then "first" else s)

/-- The `servers or None` at the end of `Tool.select_servers`: an empty
list is returned as `None`. -/
def orNone (l : List Server) : Option (List Server) :=
  if l.isEmpty then none else some l

/-- The port-forwarding post-filter of `Tool.select_servers`:
`if server_config.port_forwarding: servers = list(filter(...))`. -/
def pfFilter (portForwarding : Bool) (l : List Server) : List Server :=
  if portForwarding then l.filter (fun s => s.port_forwarding) else l

/-- Embedding of `Tool.select_servers` (`lib/provider.py` lines 93-116).

* `first`: `servers = server_config.servers` (order preserved);
* `fastest`: the branch body is `for server in servers:` — but the local
  variable `servers` has not been assigned yet on this path, so CPython
  raises `UnboundLocalError` before any latency probe is issued;
* `recent`: `sorted(server_config.servers, key=lambda s: s.recent_order)`
  (Python `sorted` is a stable ascending sort, embedded as a stable
  insertion sort by the same key);
* `rotation`: the same sort with `reverse=True` (stable descending);
* any other normalised value: `tools.error(..., fatal_error=True)`.

The port-forwarding filter and the `or None` conversion follow. -/
def selectServers (discipline : Option String) (servers : List Server)
    (portForwarding : Bool) : Except PyError (Option (List Server)) :=
  let d := normDiscipline discipline
  let sortedServers : Except PyError (List Server) :=
    if d = "first" then .ok servers
    else if d = "fastest" then .error (.unboundLocalError "servers")
    else if d = "recent" then .ok (List.insertionSort recentLe servers)
    else if d = "rotation" then .ok (List.insertionSort recentGe servers)
    else .error (.fatalExit ("Bad server selection discipline: " ++ d))
  match sortedServers with
  | .error e => .error e
  | .ok l => .ok (orNone (pfFilter portForwarding l))

end Select

/-- A concrete server record used by witnesses and counterexamples. -/
def srvA : Server :=
  { name := "CA Toronto", config_path := "ca_toronto.ovpn",
    protocols := ["udp"], port_forwarding := true, recent_order := 2 }

/-- A second concrete server record. -/
def srvB : Server :=
  { name := "France", config_path := "france.ovpn",
    protocols := ["udp"], port_forwarding := false, recent_order := 1 }

namespace Fw

/-- The `\w` character class of the patterns in `lib/provider.py`
(device and protocol names are ASCII). -/
def isWordChar (c : Char) : Bool := c.isAlpha || c.isDigit || c = '_'

/-- The `\s` character class (Python whitespace). -/
def isSpaceChar (c : Char) : Bool :=
  c = ' ' || c = '\t' || c = '\n' || c = '\r' || c.toNat = 11 || c.toNat = 12

/-- The `[0-9.]` character class of `iproute_show_regex`. -/
def isAddrChar (c : Char) : Bool := c.isDigit || c = '.'

/-- Maximal run of characters satisfying `p` (greedy `+`/`*` matching for
a class that excludes the character that must follow). -/
def takeRun (p : Char → Bool) : List Char → List Char × List Char
  | [] => ([], [])
  | c :: cs =>
    if p c then
      let (r, rest) := takeRun p cs
      (c :: r, rest)
    else ([], c :: cs)

/-- Consume an exact literal, returning the rest on success. -/
def dropLit : List Char → List Char → Option (List Char)
  | [], cs => some cs
  | _ :: _, [] => none
  | l :: ls, c :: cs => if c = l then dropLit ls cs else none

/-- Match `vpn_device_regex` = `TUN/TAP device (\w+) opened` at one
position: the literal, a non-empty word-character run, then the literal
` opened`. -/
def matchDeviceAt (cs : List Char) : Option String :=
  match dropLit "TUN/TAP device ".data cs with
  | none => none
  | some rest =>
    let (w, rest2) := takeRun isWordChar rest
    if w.isEmpty then none
    else
      match dropLit " opened".data rest2 with
      | some _ => some (String.mk w)
      | none => none

/-- `re.search` for the device pattern: try each start position left to
right. -/
def searchDevice : List Char → Option String
  | [] => none
  | c :: cs =>
    match matchDeviceAt (c :: cs) with
    | some d => some d
    | none => searchDevice cs

/-- The device-line scan of one log read: `for line in proc.stdout...`
with break on the first matching line. -/
def findDeviceInLines : List String → Option String
  | [] => none
  | l :: ls =>
    match searchDevice l.data with
    | some d => some d
    | none => findDeviceInLines ls

/-- Match `iproute_show_regex` = `^default via ([0-9.]+) dev (\w+) `
(anchored; note the pattern requires a space after the device name).
Returns `(lan_addr, def_dev)` as grouped. -/
def matchRouteLine (line : String) : Option (String × String) :=
  match dropLit "default via ".data line.data with
  | none => none
  | some r1 =>
    let (addr, r2) := takeRun isAddrChar r1
    if addr.isEmpty then none
    else
      match dropLit " dev ".data r2 with
      | none => none
      | some r3 =>
        let (dev, r4) := takeRun isWordChar r3
        if dev.isEmpty then none
        else
          match r4 with
          | ' ' :: _ => some (String.mk addr, String.mk dev)
          | _ => none

/-- The route scan of `Tool.get_vpn_data`: first line of `ip route show`
output matching the pattern (for/else with break). -/
def scanRoute : List String → Option (String × String)
  | [] => none
  | l :: ls =>
    match matchRouteLine l with
    | some r => some r
    | none => scanRoute ls

/-- Match `vpn_config_remote_regex` = `^\s*remote ([^\s]+) (\d+)\s*$`:
leading whitespace, the literal `remote `, a non-empty non-whitespace
host, one space, non-empty digits, trailing whitespace to end of line.
Returns `(addr, port)`; the port stays a string, as in the source. -/
def matchRemoteLine (line : String) : Option (String × String) :=
  let (_, r0) := takeRun isSpaceChar line.data
  match dropLit "remote ".data r0 with
  | none => none
  | some r1 =>
    let (host, r2) := takeRun (fun c => !isSpaceChar c) r1
    if host.isEmpty then none
    else
      match r2 with
      | ' ' :: r3 =>
        let (digits, r4) := takeRun Char.isDigit r3
        if digits.isEmpty then none
        else
          let (_, r5) := takeRun isSpaceChar r4
          if r5.isEmpty then some (String.mk host, String.mk digits) else none
      | _ => none

/-- Match `vpn_config_protocol_regex` = `^\s*proto (\w+)\s*$`. -/
def matchProtoLine (line : String) : Option String :=
  let (_, r0) := takeRun isSpaceChar line.data
  match dropLit "proto ".data r0 with
  | none => none
  | some r1 =>
    let (w, r2) := takeRun isWordChar r1
    if w.isEmpty then none
    else
      let (_, r3) := takeRun isSpaceChar r2
      if r3.isEmpty then some (String.mk w) else none

/-- The data object built by `Tool.get_vpn_data` (`class VPNConfigData`,
every field initialised to `None`). -/
structure VpnData where
  lan_addr : Option String
  def_dev : Option String
  vpn_dev : Option String
  addr : Option String
  port : Option String
  protocol : Option String
deriving DecidableEq, Repr

/-- Observable actions of the firewall step. -/
inductive FwEv where
  | routeRead
  | sleepSecs (n : Nat)
  | logRead (k : Nat)
  | readVpnConfig (path : String)
  | iptables (args : List String)
deriving DecidableEq, Repr

/-- External world as seen by the firewall step: the `ip route show`
output lines, the tunnel log contents at the k-th read (the log file may
gain lines between reads), and each configuration file's lines. -/
structure FwEnv where
  routeLines : List String
  logReads : Nat → List String
  configLines : String → List String

/-- `DEVICE_WAIT_SLEEP_SECONDS = 0` (`lib/provider.py` line 21). -/
def deviceWaitSleepSeconds : Nat := 0

/-- `DEVICE_WAIT_MAX_RETRIES = 5` (`lib/provider.py` line 22). -/
def deviceWaitMaxRetries : Nat := 5

/-- The device-discovery loop of `Tool.get_vpn_data`:
`for retry_num in range(DEVICE_WAIT_MAX_RETRIES + 1)`, each iteration
sleeping `DEVICE_WAIT_SLEEP_SECONDS` and re-reading the full log
(`sudo cat`), breaking on the first matching line.  `k` is the current
read index, the second argument the remaining iteration count. -/
def deviceLoop (logReads : Nat → List String) : Nat → Nat → List FwEv × Option String
  | _, 0 => ([], none)
  | k, r + 1 =>
    let evs := [FwEv.sleepSecs deviceWaitSleepSeconds, FwEv.logRead k]
    match findDeviceInLines (logReads k) with
    | some d => (evs, some d)
    | none =>
      let (evs2, res) := deviceLoop logReads (k + 1) r
      (evs ++ evs2, res)

/-- The configuration scan of `Tool.get_vpn_data` (lines 159-167): every
line is tested against both patterns and a later match overwrites an
earlier one; nothing is reported when no line matches.  The accumulator
is `(addr, port, protocol)`. -/
def parseVpnConfig (acc : Option String × Option String × Option String) :
    List String → Option String × Option String × Option String
  | [] => acc
  | l :: ls =>
    let acc1 := match matchRemoteLine l with
      | some (a, p) => (some a, some p, acc.2.2)
      | none => acc
    let acc2 := match matchProtoLine l with
      | some pr => (acc1.1, acc1.2.1, some pr)
      | none => acc1
    parseVpnConfig acc2 ls

/-- Embedding of `Tool.get_vpn_data` (`lib/provider.py` lines 118-168):
parse `ip route show` for the default device (fatal if absent), run the
bounded device-discovery loop (fatal if no match and not a dry run, with
a dry-run placeholder device otherwise), then scan the launched server's
configuration file for remote/protocol lines. -/
def getVpnData (env : FwEnv) (dryrun : Bool) (configPath : String) :
    List FwEv × Except PyError VpnData :=
  let evs0 := [FwEv.routeRead]
  match scanRoute env.routeLines with
  | none => (evs0, .error (.fatalExit "Failed to find default device using ip route show."))
  | some (lan, dev) =>
    let (devEvs, devRes) := deviceLoop env.logReads 0 (deviceWaitMaxRetries + 1)
    let vpnDev : Option String :=
      match devRes with
      | some d => some d
      | none => if dryrun then some "(dryrun-tun-device)" else none
    match vpnDev with
    | none =>
      (evs0 ++ devEvs, .error (.fatalExit "Failed to find TUN/TAP device in log"))
    | some vd =>
      let (a, p, pr) := parseVpnConfig (none, none, none) (env.configLines configPath)
      (evs0 ++ devEvs ++ [FwEv.readVpnConfig configPath],
        .ok ⟨some lan, some dev, some vd, a, p, pr⟩)

/-- The six commands of `firewall.reset()` (`lib/firewall.py` lines
60-65): accept policies on INPUT, OUTPUT and FORWARD, then `-Z`, `-F`,
`-X`.  Each entry is the argument list passed to `sudo iptables`. -/
def iptablesResetCmds : List (List String) :=
  [["--policy", "INPUT", "ACCEPT"],
   ["--policy", "OUTPUT", "ACCEPT"],
   ["--policy", "FORWARD", "ACCEPT"],
   ["-Z"], ["-F"], ["-X"]]

/-- The command sequence of `firewall.start(def_dev, vpn_dev, lan_addr,
port, protocol)` (`lib/firewall.py` lines 67-76): three default-deny
policies, then the allow rules.  Note the outbound control-channel rule
(`_iptables_enable_output_protocol`) receives `lan_addr` as its
destination address, not the parsed remote address. -/
def firewallStartCmds (def_dev vpn_dev lan_addr port protocol : String) :
    List (List String) :=
  [["--policy", "OUTPUT", "DROP"],
   ["--policy", "INPUT", "DROP"],
   ["--policy", "FORWARD", "DROP"],
   ["-A", "OUTPUT", "-o", "lo", "-j", "ACCEPT"],
   ["-A", "OUTPUT", "-o", vpn_dev, "-j", "ACCEPT"],
   ["-A", "OUTPUT", "-o", def_dev, "-d", lan_addr, "-p", protocol,
    "--dport", port, "-j", "ACCEPT"],
   ["-A", "INPUT", "-i", "lo", "-j", "ACCEPT"],
   ["-A", "INPUT", "-m", "state", "--state", "ESTABLISHED,RELATED", "-j", "ACCEPT"]]

/-- `def start(def_dev, vpn_dev, lan_addr, port, protocol)` declares five
parameters (`lib/firewall.py` line 67). -/
def firewallStartParamCount : Nat := 5

/-- `Tool.start_firewall` calls `firewall.start(vpn.def_dev, vpn.vpn_dev,
vpn.lan_addr, vpn.port, vpn.protocol, sshd_port)` with six positional
arguments (`lib/provider.py` line 181). -/
def toolStartFirewallCallArgCount : Nat := 6

/-- Embedding of `Tool.start_firewall` (`lib/provider.py` lines 170-191):
`get_vpn_data` first (its fatal errors propagate), then `firewall.reset()`
issues the six reset commands; the next statement evaluates
`tools.get_sshd_port()`, but `lib/tools.py` defines no function of that
name, so the attribute lookup raises `AttributeError` — every statement
after it (`firewall.start`, port forwarding, LAN enabling) is dead code.
Were the lookup to succeed, the call to `firewall.start` on line 181
would still raise `TypeError`: it passes six positional arguments to a
five-parameter function. -/
def startFirewall (env : FwEnv) (dryrun : Bool) (configPath : String)
    (_portForwarding _blockLan _newPort : Bool) :
    List FwEv × Except PyError Unit :=
  match getVpnData env dryrun configPath with
  | (evs, .error e) => (evs, .error e)
  | (evs, .ok _vpn) =>
    (evs ++ iptablesResetCmds.map FwEv.iptables,
     .error (.attributeError "module tools has no attribute get_sshd_port"))

/-- The events of `r` consecutive failed log reads starting at read
index `k`: each read is preceded by the fixed sleep. -/
def allReadsEvs : Nat → Nat → List FwEv
  | _, 0 => []
  | k, r + 1 =>
    FwEv.sleepSecs deviceWaitSleepSeconds :: FwEv.logRead k :: allReadsEvs (k + 1) r

/-- Recogniser for log-read events. -/
def isLogRead : FwEv → Bool
  | .logRead _ => true
  | _ => false

end Fw

namespace Start

/-- Observable actions of the start command (`commands.d/start.py`,
`execute`).  `fwEv` wraps the firewall step's own actions; `fwOk` marks
`provider_tool.start_firewall` returning without an exception; `connected`
marks the `break` that ends the candidate loop successfully. -/
inductive Ev where
  | deleteMarkers
  | appendRecent (name : String)
  | launch (name : String)
  | errorReport (msg : String)
  | fwEv (e : Fw.FwEv)
  | fwOk (name : String)
  | connected (name : String)
deriving DecidableEq, Repr

/-- The start command options (`options.WAIT`, `options.NEW_PORT`,
`options.NO_FIREWALL`, `options.DRYRUN`). -/
structure StartOpts where
  wait : Bool
  newPort : Bool
  noFirewall : Bool
  dryrun : Bool

/-- The option-set flags `execute` reads from the selected
`ServerOptionSet` (`server_config.block_lan`,
`server_config.disable_firewall`). -/
structure ServerCfg where
  blockLan : Bool
  disableFirewall : Bool

/-- External world as seen by the candidate loop: the initial PID-marker
liveness check, and per attempt index the tunnel launcher's exit code and
the post-launch PID lookup. -/
structure StartEnv where
  initialPid : Option Int
  launchRc : Nat → Int
  pidAfter : Nat → Option Int

/-- Embedding of the candidate loop of `execute` (`commands.d/start.py`
lines 47-78), parameterised by the firewall step `fw` (the
`provider_tool.start_firewall` method-call boundary).  For each candidate:
append its name to `saved_state.data.recent_servers`, then launch the
tunnel process.  On non-zero exit code, fall through to the next
candidate.  In wait mode nothing further happens in the loop body.  In
daemon mode, a missing post-launch PID reports a non-fatal error and
falls through; with a PID and the firewall not disabled the firewall step
runs — an exception from it propagates and aborts the whole run — and
only after it returns does the `break` (`connected`) fire.  `i` is the
attempt index; the result Bool is whether the loop was left via `break`. -/
def startAttempts (opts : StartOpts) (cfg : ServerCfg) (env : StartEnv)
    (fw : Server → List Fw.FwEv × Except PyError Unit) :
    Nat → List Server → List Ev × Except PyError Bool
  | _, [] => ([], .ok false)
  | i, s :: rest =>
    let evs0 := [Ev.appendRecent s.name, Ev.launch s.name]
    if env.launchRc i = 0 then
      if opts.wait then
        let (evs, r) := startAttempts opts cfg env fw (i + 1) rest
        (evs0 ++ evs, r)
      else
        let pid : Option Int := if opts.dryrun then some (-1) else env.pidAfter i
        match pid with
        | some _p =>
          if !opts.noFirewall && !cfg.disableFirewall then
            let (fevs, fr) := fw s
            match fr with
            | .ok _ =>
              (evs0 ++ fevs.map Ev.fwEv ++ [Ev.fwOk s.name, Ev.connected s.name],
               .ok true)
            | .error e => (evs0 ++ fevs.map Ev.fwEv, .error e)
          else (evs0 ++ [Ev.connected s.name], .ok true)
        | none =>
          let (evs, r) := startAttempts opts cfg env fw (i + 1) rest
          (evs0 ++ [Ev.errorReport "OpenVPN does not seem to be running."] ++ evs, r)
    else
      let (evs, r) := startAttempts opts cfg env fw (i + 1) rest
      (evs0 ++ evs, r)

/-- Embedding of `execute` (`commands.d/start.py` lines 31-86) around the
candidate loop: the already-running guard, the no-candidates guard, the
stale marker deletion, the loop, and the for/else fatal error when no
candidate was connected. -/
def startExecute (opts : StartOpts) (cfg : ServerCfg) (env : StartEnv)
    (fw : Server → List Fw.FwEv × Except PyError Unit)
    (servers : List Server) : List Ev × Except PyError Unit :=
  match env.initialPid with
  | some _ => ([], .error (.fatalExit "OpenVPN server is already running."))
  | none =>
    if servers.isEmpty then
      ([], .error (.fatalExit "No matching servers found."))
    else
      let (evs, r) := startAttempts opts cfg env fw 0 servers
      match r with
      | .ok true => (Ev.deleteMarkers :: evs, .ok ())
      | .ok false =>
        (Ev.deleteMarkers :: evs, .error (.fatalExit "Failed to start PIA OpenVPN server."))
      | .error e => (Ev.deleteMarkers :: evs, .error e)

/-- The firewall step actually wired in by `execute`:
`provider_tool.start_firewall(server.config_path,
port_forwarding=server.port_forwarding, block_lan=..., new_port=...)`. -/
def fwStepReal (fenv : Fw.FwEnv) (opts : StartOpts) (cfg : ServerCfg) :
    Server → List Fw.FwEv × Except PyError Unit :=
  fun s =>
    Fw.startFirewall fenv opts.dryrun s.config_path s.port_forwarding
      cfg.blockLan opts.newPort

/-- `execute` composed with the real `Tool.start_firewall`. -/
def startExecuteReal (opts : StartOpts) (cfg : ServerCfg) (env : StartEnv)
    (fenv : Fw.FwEnv) (servers : List Server) : List Ev × Except PyError Unit :=
  startExecute opts cfg env (fwStepReal fenv opts cfg) servers

/-- Scanner state for the connected-after-firewall check: the name passed
to the most recent successful firewall step, if any. -/
def caState (st : Option String) : Ev → Option String
  | .fwOk n => some n
  | _ => st

/-- One event is acceptable if it is not a `connected` report, or is a
`connected` report for the candidate whose firewall step last succeeded. -/
def caOk (st : Option String) : Ev → Bool
  | .connected n => st == some n
  | _ => true

/-- Trace check: every `connected` report is preceded by a successful
firewall application for that same candidate. -/
def connectedAfterFwOk (st : Option String) : List Ev → Bool
  | [] => true
  | e :: r => caOk st e && connectedAfterFwOk (caState st e) r

/-- Packet-filter policy state, as driven by the issued `iptables`
commands: whether a reset (`-F`) has been issued in this run, and whether
each chain's policy is DROP. -/
structure NHSt where
  resetDone : Bool
  dropIn : Bool
  dropOut : Bool
  dropFwd : Bool
deriving DecidableEq, Repr

/-- Interpret one `iptables` argument list on the policy state. -/
def stepCmd (st : NHSt) (args : List String) : NHSt :=
  if args = ["--policy", "INPUT", "ACCEPT"] then { st with dropIn := false }
  else if args = ["--policy", "OUTPUT", "ACCEPT"] then { st with dropOut := false }
  else if args = ["--policy", "FORWARD", "ACCEPT"] then { st with dropFwd := false }
  else if args = ["--policy", "INPUT", "DROP"] then { st with dropIn := true }
  else if args = ["--policy", "OUTPUT", "DROP"] then { st with dropOut := true }
  else if args = ["--policy", "FORWARD", "DROP"] then { st with dropFwd := true }
  else if args = ["-F"] then { st with resetDone := true }
  else st

/-- Advance the policy state over one event. -/
def nhStep (st : NHSt) : Ev → NHSt
  | .fwEv (.iptables args) => stepCmd st args
  | _ => st

/-- The filter is restrictive when all three chain policies are DROP. -/
def restrictive (st : NHSt) : Bool := st.dropIn && st.dropOut && st.dropFwd

/-- Trace check: no `connected` report occurs while the packet filter has
been reset (a `-F` was issued) but not yet made restrictive again. -/
def noHalfOpenConnected (st : NHSt) : List Ev → Bool
  | [] => true
  | e :: r =>
    (match e with
     | .connected _ => !(st.resetDone && !restrictive st)
     | _ => true) && noHalfOpenConnected (nhStep st e) r

/-- Whether a trace contains a `connected` report. -/
def hasConnected : List Ev → Bool
  | [] => false
  | Ev.connected _ :: _ => true
  | _ :: r => hasConnected r

end Start

/-- Concrete start options: daemon mode, no dry run, firewall enabled. -/
def opts0 : Start.StartOpts :=
  { wait := false, newPort := false, noFirewall := false, dryrun := false }

/-- Concrete option-set flags: LAN not blocked, firewall not disabled. -/
def cfg0 : Start.ServerCfg := { blockLan := false, disableFirewall := false }

/-- Concrete loop environment: no prior PID, every launch exits 0, the
daemon PID is found after launch. -/
def env0 : Start.StartEnv :=
  { initialPid := none, launchRc := fun _ => 0, pidAfter := fun _ => some 314 }

/-- Firewall environment whose tunnel log never contains an
interface-assignment line. -/
def fenvNoDevice : Fw.FwEnv :=
  { routeLines := ["default via 10.0.0.1 dev eth0 proto dhcp src 10.0.0.5 "],
    logReads := fun _ => ["openvpn starting", "no interface line here"],
    configLines := fun _ => ["remote 1.2.3.4 1198", "proto udp"] }

/-- Firewall environment whose first log read already announces the
tunnel device. -/
def fenvDevice : Fw.FwEnv :=
  { routeLines := ["default via 10.0.0.1 dev eth0 proto dhcp src 10.0.0.5 "],
    logReads := fun _ => ["Tue Jan 1 openvpn: TUN/TAP device tun0 opened"],
    configLines := fun _ => ["remote 1.2.3.4 1198", "proto udp"] }

/-- Project the `iptables` invocations out of a firewall-step trace. -/
def fwIptablesArgs (e : Fw.FwEv) : Option (List String) :=
  match e with
  | Fw.FwEv.iptables a => some a
  | _ => none

/-- Firewall environment whose configuration file has no `remote` line. -/
def fenvNoRemote : Fw.FwEnv :=
  { routeLines := ["default via 10.0.0.1 dev eth0 proto dhcp src 10.0.0.5 "],
    logReads := fun _ => ["Tue Jan 1 openvpn: TUN/TAP device tun0 opened"],
    configLines := fun _ => ["client", "dev tun", "proto udp"] }

namespace Persist

/-- Embedding of `PersistentJSONData.__init__` (`lib/tools.py` lines
658-678), tracking the `data` dictionary.  When the state file exists its
JSON contents are parsed into `self.data`; the constructor then ends
with an unconditional `self.data = Data()` — a fresh empty dict — so the
loaded contents are discarded in every case.  `fileData` is the parsed
contents of the state file, or `none` when the file does not exist. -/
def persistentJSONDataInit (fileData : Option (List (String × JVal))) :
    List (String × JVal) :=
  let dataAfterLoad : Option (List (String × JVal)) :=
    match fileData with
    | some loaded => some loaded
    | none => none
  let _ := dataAfterLoad
  []

/-- Embedding of `PersistentJSONData.save` (`lib/tools.py` lines
680-689): when `_dirty` it calls `create_directory(...)` — a name defined
nowhere (the module function is `get_directory`) — raising `NameError`
before anything is written; when clean it does nothing. -/
def pjdSave (dirty : Bool) : Except PyError Unit :=
  if dirty then .error (.nameError "create_directory") else .ok ()

/-- `commands.d/start.py` defines `name`, `help`, `arguments` and
`execute`; it defines no module-level `setup` (and no `cleanup`). -/
def startModuleHasSetup : Bool := false

/-- `SubCommandModule.cleanup` (`lib/command.py` lines 139-141) invokes
`module.cleanup(self.options)` only when `hasattr(module, 'setup')`. -/
def subCommandCleanupRuns (moduleHasSetup : Bool) : Bool := moduleHasSetup

/-- The recency-rank computation of `PIAProvider.get_servers`
(`lib/pia.py` lines 234-238): the first occurrence index in the recent
list plus one, or `len(recent) + 1` for a name not in the list. -/
def recentOrderOf (recent : List String) (name : String) : Nat :=
  match recent.indexOf? name with
  | some i => i + 1
  | none => recent.length + 1

end Persist

namespace Catalog

/-- `def get_servers(self)` (`lib/pia.py` line 228) declares no
parameters besides `self`. -/
def getServersParamCount : Nat := 0

/-- `Tool.openvpn_servers` (`lib/provider.py` line 75) calls
`self.provider.get_servers(recent_server_names)`: one positional
argument. -/
def openvpnServersCallArgCount : Nat := 1

/-- The instance attributes `PIAProvider.__init__` assigns
(`lib/pia.py` lines 165-171). -/
def piaProviderAttrs : List String :=
  ["download_dir", "config_dir", "port_path", "html_path", "list_path",
   "client_id_path"]

/-- Python call semantics for `PIAProvider.get_servers`: a call with the
wrong number of positional arguments raises `TypeError` before the body
runs; otherwise the body's first statement reads `self.saved_state`
(line 230), an attribute `PIAProvider.__init__` never assigns, raising
`AttributeError`.  The rest of the body is unreachable on every path and
is therefore not modelled further. -/
def callGetServers (argCount : Nat) : Except PyError (List Server) :=
  if argCount ≠ getServersParamCount then
    .error (.typeError "get_servers takes 1 positional argument but 2 were given")
  else if "saved_state" ∈ piaProviderAttrs then
    .ok []
  else
    .error (.attributeError "PIAProvider object has no attribute saved_state")

/-- Embedding of the `Tool.openvpn_servers` property body
(`lib/provider.py` lines 70-76): it passes the persisted recent-server
names as one positional argument. -/
def openvpnServers (_recentNames : List String) : Except PyError (List Server) :=
  callGetServers openvpnServersCallArgCount

end Catalog

namespace PortFwd

/-- Python `str.strip()`: remove leading and trailing whitespace. -/
def pyStrip (s : String) : String :=
  String.mk (((s.data.dropWhile Fw.isSpaceChar).reverse.dropWhile
    Fw.isSpaceChar).reverse)

/-- Decimal digits to a natural number. -/
def natOfDigits (ds : List Char) : Nat :=
  ds.foldl (fun a c => a * 10 + (c.toNat - 48)) 0

/-- Python `int(s)` on an ASCII decimal string: optional surrounding
whitespace, optional sign, then digits; anything else raises
`ValueError` (modelled as `none`). -/
def pyIntOfString (s : String) : Option Int :=
  match (pyStrip s).data with
  | '-' :: ds =>
    if !ds.isEmpty && ds.all Char.isDigit then some (-(natOfDigits ds : Int)) else none
  | '+' :: ds =>
    if !ds.isEmpty && ds.all Char.isDigit then some (natOfDigits ds : Int) else none
  | ds =>
    if !ds.isEmpty && ds.all Char.isDigit then some (natOfDigits ds : Int) else none

/-- Python `int(x)` on the value returned by `json_response.get('port')`:
a number converts, a numeric string parses, a boolean converts to 0/1, a
missing key (Python `None`) or a JSON null or list raises `TypeError`,
and a non-numeric string raises `ValueError`. -/
def pyIntOfJVal : Option JVal → Except PyError Int
  | some (.jnum n) => .ok n
  | some (.jstr s) =>
    match pyIntOfString s with
    | some n => .ok n
    | none => .error (.valueError "invalid literal for int with base 10")
  | some (.jbool b) => .ok (if b then 1 else 0)
  | some .jnull => .error (.typeError "int argument must be a number, not NoneType")
  | none => .error (.typeError "int argument must be a number, not NoneType")
  | some (.jstrs _) => .error (.typeError "int argument must be a number, not list")

/-- Python `dict.get(key)`: the first binding for the key, else `None`. -/
def jGet (fields : List (String × JVal)) (k : String) : Option JVal :=
  (fields.find? (fun kv => kv.1 == k)).map (fun kv => kv.2)

/-- Observable actions of `PIAProvider.get_forwarded_port`. -/
inductive PFEv where
  | sleepSecs (n : Nat)
  | readIdFile
  | writeIdFile (s : String)
  | httpGet (url : String)
  | writePortFile (p : Int)
  | errorReport (msg : String)
deriving DecidableEq, Repr

/-- External world as seen by `get_forwarded_port`: the dry-run flag,
whether the client-identifier file exists and its raw contents, the
digest a fresh identifier generation would produce
(`hashlib.sha256(os.urandom(16384)).hexdigest()`), and the parsed JSON
object from the forwarding endpoint (`none` when `download_json`
returned nothing). -/
structure PFEnv where
  dryrun : Bool
  idFileExists : Bool
  idFileContents : String
  freshDigest : String
  response : Option (List (String × JVal))

/-- The request URL `'/'.join([FORWARDING_REQUEST_URL,
'?client_id=...'])`. -/
def forwardingUrl (clientId : String) : String :=
  "http://209.222.18.222:2000/?client_id=" ++ clientId

/-- Embedding of `PIAProvider.get_forwarded_port` (`lib/pia.py` lines
189-216).

* dry run: return `9999` immediately;
* `time.sleep(2)`;
* when the identifier file exists and no new port was requested, the
  persisted identifier is read and stripped;
* otherwise a fresh identifier is computed, and the persist step calls
  `tools.open_output_file(self.client_id_path, mkdir=True)` — but
  `open_output_file` has no parameter named `mkdir` (it is
  `create_directory`), so the call raises `TypeError` before the file is
  written and before any request is issued;
* then the request is issued and, when the JSON response is truthy,
  `int(json_response.get('port'))` is parsed: a `ValueError` lands in an
  `except` block whose message formats the variable `port`, which is
  unbound at that point, so the handler itself raises
  `UnboundLocalError`; other exceptions from `int` propagate; a zero
  port falls through `if port:` and the function returns `None` with no
  error report; a non-zero port is persisted to the port marker file and
  returned;
* a falsy response reports a (non-fatal) error and returns `None`. -/
def getForwardedPort (env : PFEnv) (newPort : Bool) :
    List PFEv × Except PyError (Option Int) :=
  if env.dryrun then ([], .ok (some 9999))
  else
    let evs0 := [PFEv.sleepSecs 2]
    if env.idFileExists && !newPort then
      let clientId := pyStrip env.idFileContents
      let evs1 := evs0 ++ [PFEv.readIdFile, PFEv.httpGet (forwardingUrl clientId)]
      match env.response with
      | some fields =>
        if fields.isEmpty then
          (evs1 ++ [PFEv.errorReport "Failed to establish port forwarding."], .ok none)
        else
          match pyIntOfJVal (jGet fields "port") with
          | .error (.valueError _) => (evs1, .error (.unboundLocalError "port"))
          | .error e => (evs1, .error e)
          | .ok port =>
            if port = 0 then (evs1, .ok none)
            else (evs1 ++ [PFEv.writePortFile port], .ok (some port))
      | none =>
        (evs1 ++ [PFEv.errorReport "Failed to establish port forwarding."], .ok none)
    else
      (evs0, .error (.typeError "open_output_file got an unexpected keyword argument mkdir"))

end PortFwd

/-- Environment with no persisted identifier file. -/
def pfEnvGen : PortFwd.PFEnv :=
  { dryrun := false, idFileExists := false, idFileContents := "",
    freshDigest := "9f86d081884c7d659a2feaa0c55ad015a3bf4f1b2b0b822cd15d6c15b0f00a08",
    response := some [("port", JVal.jnum 54321)] }

/-- Environment with a persisted identifier file. -/
def pfEnvLoad : PortFwd.PFEnv :=
  { dryrun := false, idFileExists := true, idFileContents := "deadbeef\n",
    freshDigest := "9f86d081884c7d659a2feaa0c55ad015a3bf4f1b2b0b822cd15d6c15b0f00a08",
    response := some [("port", JVal.jnum 54321)] }

/-- Environment whose endpoint returns a zero port. -/
def pfEnvZero : PortFwd.PFEnv :=
  { dryrun := false, idFileExists := true, idFileContents := "id0",
    freshDigest := "d0", response := some [("port", JVal.jnum 0)] }

/-- Environment whose endpoint returns a non-numeric port. -/
def pfEnvBadPort : PortFwd.PFEnv :=
  { dryrun := false, idFileExists := true, idFileContents := "id0",
    freshDigest := "d0", response := some [("port", JVal.jstr "x")] }

/-- Environment whose endpoint returns port 2049. -/
def pfEnvGood : PortFwd.PFEnv :=
  { dryrun := false, idFileExists := true, idFileContents := "id0",
    freshDigest := "d0", response := some [("port", JVal.jnum 2049)] }


/-! ### Theorems -/

/-- C3: the claim says the `fastest` discipline probes each candidate
(3-sample round trip against its remote address), assigns the sentinel to
unreachable candidates and returns the list sorted ascending by latency.
On the code, the `fastest` branch of `Tool.select_servers` reads the
local variable `servers` before it is ever assigned on that path, so the
selection raises `UnboundLocalError` before a single probe is issued,
whatever the candidate list: this theorem evaluates the embedded code on
all inputs. -/
theorem claim_C3_fastest_crashes (servers : List Server) (pf : Bool) :
    Select.selectServers (some "fastest") servers pf =
      .error (.unboundLocalError "servers") := rfl

/-- C7: `first` preserves the option set order; `recent` sorts ascending
by `recent_order`; `rotation` sorts descending by `recent_order`; and any
discipline whose normalised form (Python: `(discipline or 'first').lower()`)
is outside the four known names is a fatal configuration error. -/
theorem claim_C7_select_disciplines (servers : List Server) (pf : Bool) :
    (Select.selectServers (some "first") servers pf =
       .ok (Select.orNone (Select.pfFilter pf servers)))
  ∧ (∃ l, Select.selectServers (some "recent") servers pf =
        .ok (Select.orNone (Select.pfFilter pf l))
      ∧ List.Perm l servers ∧ List.Sorted Select.recentLe l)
  ∧ (∃ l, Select.selectServers (some "rotation") servers pf =
        .ok (Select.orNone (Select.pfFilter pf l))
      ∧ List.Perm l servers ∧ List.Sorted Select.recentGe l)
  ∧ (∀ d : String,
      Select.normDiscipline (some d) ∉
        (["first", "fastest", "recent", "rotation"] : List String) →
      Select.selectServers (some d) servers pf =
        .error (.fatalExit
          ("Bad server selection discipline: " ++ Select.normDiscipline (some d)))) := by
  refine ⟨rfl, ⟨List.insertionSort Select.recentLe servers, rfl,
      List.perm_insertionSort _ _, List.sorted_insertionSort _ _⟩,
    ⟨List.insertionSort Select.recentGe servers, rfl,
      List.perm_insertionSort _ _, List.sorted_insertionSort _ _⟩, ?_⟩
  intro d hd
  have h1 : Select.normDiscipline (some d) ≠ "first" := by
    intro h; exact hd (by rw [h]; simp)
  have h2 : Select.normDiscipline (some d) ≠ "fastest" := by
    intro h; exact hd (by rw [h]; simp)
  have h3 : Select.normDiscipline (some d) ≠ "recent" := by
    intro h; exact hd (by rw [h]; simp)
  have h4 : Select.normDiscipline (some d) ≠ "rotation" := by
    intro h; exact hd (by rw [h]; simp)
  simp only [Select.selectServers, if_neg h1, if_neg h2, if_neg h3, if_neg h4]

/-- Witness for C7 at concrete inputs: the unknown discipline value
`bogus` is rejected fatally. -/
theorem claim_C7_witness :
    Select.normDiscipline (some "bogus") ∉
      (["first", "fastest", "recent", "rotation"] : List String)
  ∧ Select.selectServers (some "bogus") [srvA] false =
      .error (.fatalExit
        ("Bad server selection discipline: " ++ Select.normDiscipline (some "bogus"))) :=
  ⟨by decide, (claim_C7_select_disciplines [srvA] false).2.2.2 "bogus" (by decide)⟩

namespace Start

theorem connectedAfterFwOk_append (xs ys : List Ev) (st : Option String) :
    connectedAfterFwOk st (xs ++ ys) =
      (connectedAfterFwOk st xs && connectedAfterFwOk (xs.foldl caState st) ys) := by
  induction xs generalizing st with
  | nil => simp [connectedAfterFwOk]
  | cons e r ih => simp [connectedAfterFwOk, ih, Bool.and_assoc, List.foldl]

theorem caState_fwEvs (l : List Fw.FwEv) (st : Option String) :
    (l.map Ev.fwEv).foldl caState st = st := by
  induction l generalizing st with
  | nil => rfl
  | cons e r ih => simp [List.foldl, caState, ih]

theorem connectedAfterFwOk_fwEvs (l : List Fw.FwEv) (st : Option String) :
    connectedAfterFwOk st (l.map Ev.fwEv) = true := by
  induction l generalizing st with
  | nil => rfl
  | cons e r ih => simp [connectedAfterFwOk, caOk, caState, ih]

theorem startAttempts_connectedAfterFwOk (opts : StartOpts) (cfg : ServerCfg)
    (env : StartEnv) (fw : Server → List Fw.FwEv × Except PyError Unit)
    (h1 : opts.noFirewall = false) (h2 : cfg.disableFirewall = false) :
    ∀ (servers : List Server) (i : Nat) (st : Option String),
      connectedAfterFwOk st (startAttempts opts cfg env fw i servers).1 = true := by
  intro servers
  induction servers with
  | nil => intro i st; rfl
  | cons s rest ih =>
    intro i st
    have ihv : ∀ st2, connectedAfterFwOk st2 (startAttempts opts cfg env fw (i + 1) rest).1 = true :=
      fun st2 => ih (i + 1) st2
    rcases hfw : fw s with ⟨fevs, fr⟩
    rcases hrec : startAttempts opts cfg env fw (i + 1) rest with ⟨evs, r⟩
    have ihe : ∀ st2, connectedAfterFwOk st2 evs = true := by
      intro st2; have := ihv st2; rw [hrec] at this; exact this
    simp only [startAttempts, hfw, hrec]
    by_cases hrc : env.launchRc i = 0
    · simp only [if_pos hrc]
      cases hw : opts.wait with
      | true => simp [hw, connectedAfterFwOk_append, connectedAfterFwOk, caOk, caState, ihe]
      | false =>
        simp only [hw, Bool.false_eq_true, if_false]
        rcases hpid : (if opts.dryrun then some (-1 : Int) else env.pidAfter i) with _ | p
        · simp [connectedAfterFwOk_append, connectedAfterFwOk, caOk, caState, ihe]
        · simp only [h1, h2, Bool.not_false, Bool.and_self, if_pos]
          cases fr with
          | ok u =>
            simp [connectedAfterFwOk_append, connectedAfterFwOk, caOk, caState,
              connectedAfterFwOk_fwEvs, caState_fwEvs]
          | error e =>
            simp [connectedAfterFwOk_append, connectedAfterFwOk, caOk, caState,
              connectedAfterFwOk_fwEvs, caState_fwEvs]
    · simp [hrc, connectedAfterFwOk_append, connectedAfterFwOk, caOk, caState, ihe]

theorem hasConnected_append (xs ys : List Ev) :
    hasConnected (xs ++ ys) = (hasConnected xs || hasConnected ys) := by
  induction xs with
  | nil => rfl
  | cons e r ih => cases e <;> simp [hasConnected, ih]

theorem hasConnected_fwEvs (l : List Fw.FwEv) :
    hasConnected (l.map Ev.fwEv) = false := by
  induction l with
  | nil => rfl
  | cons e r ih => simp [hasConnected, ih]

theorem noHalfOpen_of_noConnected (l : List Ev) (h : hasConnected l = false) :
    ∀ st, noHalfOpenConnected st l = true := by
  induction l with
  | nil => intro st; rfl
  | cons e r ih =>
    intro st
    cases e <;> simp_all [hasConnected, noHalfOpenConnected]

theorem fwStepReal_error (fenv : Fw.FwEnv) (opts : StartOpts) (cfg : ServerCfg)
    (s : Server) : ∃ e, (fwStepReal fenv opts cfg s).2 = .error e := by
  unfold fwStepReal Fw.startFirewall
  rcases h : Fw.getVpnData fenv opts.dryrun s.config_path with ⟨evs, r⟩
  cases r <;> simp

theorem startAttempts_real_noConnected (opts : StartOpts) (cfg : ServerCfg)
    (env : StartEnv) (fenv : Fw.FwEnv)
    (h1 : opts.noFirewall = false) (h2 : cfg.disableFirewall = false) :
    ∀ (servers : List Server) (i : Nat),
      hasConnected (startAttempts opts cfg env (fwStepReal fenv opts cfg) i servers).1 = false := by
  intro servers
  induction servers with
  | nil => intro i; rfl
  | cons s rest ih =>
    intro i
    rcases hfw : fwStepReal fenv opts cfg s with ⟨fevs, fr⟩
    rcases hrec : startAttempts opts cfg env (fwStepReal fenv opts cfg) (i + 1) rest with ⟨evs, r⟩
    have ihe : hasConnected evs = false := by
      have := ih (i + 1); rw [hrec] at this; exact this
    have hfr : ∃ e, fr = .error e := by
      rcases fwStepReal_error fenv opts cfg s with ⟨e, he⟩
      rw [hfw] at he; exact ⟨e, he⟩
    rcases hfr with ⟨e, he⟩
    subst he
    simp only [startAttempts, hfw, hrec]
    by_cases hrc : env.launchRc i = 0
    · simp only [if_pos hrc]
      cases hw : opts.wait with
      | true => simp [hw, hasConnected_append, hasConnected, ihe]
      | false =>
        simp only [hw, Bool.false_eq_true, if_false]
        rcases hpid : (if opts.dryrun then some (-1 : Int) else env.pidAfter i) with _ | p
        · simp [hasConnected_append, hasConnected, ihe]
        · simp [h1, h2, hasConnected_append, hasConnected, hasConnected_fwEvs]
    · simp [hrc, hasConnected_append, hasConnected, ihe]

end Start

/-- C1: with the firewall not explicitly disabled, the candidate loop of
the start operation reports a connected session (exits via `break`) only
after the firewall step for that same candidate has returned without
error — for every environment and every behaviour of the firewall step —
and, composed with the real `Tool.start_firewall`, no execution reports a
connected session while the packet filter has been reset but not yet made
restrictive (whatever the initial chain policies). -/
theorem claim_C1_connected_only_after_firewall (opts : Start.StartOpts)
    (cfg : Start.ServerCfg) (env : Start.StartEnv) (servers : List Server)
    (h1 : opts.noFirewall = false) (h2 : cfg.disableFirewall = false) :
    (∀ fw, Start.connectedAfterFwOk none
        (Start.startExecute opts cfg env fw servers).1 = true)
  ∧ (∀ (fenv : Fw.FwEnv) (st : Start.NHSt),
      Start.noHalfOpenConnected st
        (Start.startExecuteReal opts cfg env fenv servers).1 = true) := by
  constructor
  · intro fw
    unfold Start.startExecute
    rcases env.initialPid with _ | p
    · by_cases hempty : servers.isEmpty
      · simp [hempty, Start.connectedAfterFwOk]
      · rcases hrec : Start.startAttempts opts cfg env fw 0 servers with ⟨evs, r⟩
        have hch : Start.connectedAfterFwOk none evs = true := by
          have := Start.startAttempts_connectedAfterFwOk opts cfg env fw h1 h2 servers 0 none
          rw [hrec] at this; exact this
        cases r with
        | ok b =>
          cases b <;> simp_all [Start.connectedAfterFwOk, Start.caOk, Start.caState]
        | error e =>
          simp_all [Start.connectedAfterFwOk, Start.caOk, Start.caState]
    · rfl
  · intro fenv st
    unfold Start.startExecuteReal Start.startExecute
    rcases env.initialPid with _ | p
    · by_cases hempty : servers.isEmpty
      · simp [hempty, Start.noHalfOpenConnected]
      · rcases hrec : Start.startAttempts opts cfg env (Start.fwStepReal fenv opts cfg) 0 servers with ⟨evs, r⟩
        have hnc : Start.hasConnected evs = false := by
          have := Start.startAttempts_real_noConnected opts cfg env fenv h1 h2 servers 0
          rw [hrec] at this; exact this
        have hall : ∀ st2, Start.noHalfOpenConnected st2 evs = true :=
          Start.noHalfOpen_of_noConnected evs hnc
        cases r with
        | ok b =>
          cases b <;> simp_all [Start.noHalfOpenConnected, Start.nhStep]
        | error e =>
          simp_all [Start.noHalfOpenConnected, Start.nhStep]
    · rfl

/-- Witness for C1 at concrete inputs. -/
theorem claim_C1_connected_only_after_firewall_witness :
    opts0.noFirewall = false ∧ cfg0.disableFirewall = false
  ∧ ((∀ fw, Start.connectedAfterFwOk none
        (Start.startExecute opts0 cfg0 env0 fw [srvA]).1 = true)
     ∧ (∀ (fenv : Fw.FwEnv) (st : Start.NHSt),
        Start.noHalfOpenConnected st
          (Start.startExecuteReal opts0 cfg0 env0 fenv [srvA]).1 = true)) :=
  ⟨rfl, rfl, claim_C1_connected_only_after_firewall opts0 cfg0 env0 [srvA] rfl rfl⟩

namespace Fw

theorem deviceLoop_none (logReads : Nat → List String)
    (h : ∀ k, findDeviceInLines (logReads k) = none) :
    ∀ (r k : Nat), deviceLoop logReads k r = (allReadsEvs k r, none) := by
  intro r
  induction r with
  | zero => intro k; rfl
  | succ n ih => intro k; simp [deviceLoop, h k, allReadsEvs, ih (k + 1)]

theorem deviceLoop_count_le (logReads : Nat → List String) :
    ∀ (r k : Nat), ((deviceLoop logReads k r).1.countP isLogRead) ≤ r := by
  intro r
  induction r with
  | zero => intro k; simp [deviceLoop]
  | succ n ih =>
    intro k
    rcases hrec : deviceLoop logReads (k + 1) n with ⟨evs2, res⟩
    have hle : evs2.countP isLogRead ≤ n := by
      have := ih (k + 1); rw [hrec] at this; exact this
    cases hfind : findDeviceInLines (logReads k) with
    | none =>
      simp [deviceLoop, hfind, hrec, List.countP_cons, isLogRead]
      omega
    | some d => simp [deviceLoop, hfind, hrec, List.countP_cons, isLogRead]

theorem getVpnData_reads_le (env : FwEnv) (dryrun : Bool) (path : String) :
    ((getVpnData env dryrun path).1.countP isLogRead) ≤ deviceWaitMaxRetries + 1 := by
  unfold getVpnData
  cases hroute : scanRoute env.routeLines with
  | none => simp [List.countP_cons, isLogRead]
  | some r =>
    rcases r with ⟨lan, dev⟩
    rcases hdl : deviceLoop env.logReads 0 (deviceWaitMaxRetries + 1) with ⟨devEvs, devRes⟩
    have hle : devEvs.countP isLogRead ≤ deviceWaitMaxRetries + 1 := by
      have := deviceLoop_count_le env.logReads (deviceWaitMaxRetries + 1) 0
      rw [hdl] at this; exact this
    cases devRes with
    | some d =>
      simp [hdl, List.countP_append, List.countP_cons, isLogRead]
      omega
    | none =>
      cases dryrun <;>
        simp [hdl, List.countP_append, List.countP_cons, isLogRead] <;>
        omega

/-- Under a log that never matches, `get_vpn_data` reads the log exactly
`DEVICE_WAIT_MAX_RETRIES + 1` times and exits fatally. -/
theorem getVpnData_no_device (env : FwEnv) (path lan dev : String)
    (hroute : scanRoute env.routeLines = some (lan, dev))
    (hlog : ∀ k, findDeviceInLines (env.logReads k) = none) :
    getVpnData env false path =
      (FwEv.routeRead :: allReadsEvs 0 (deviceWaitMaxRetries + 1),
       .error (.fatalExit "Failed to find TUN/TAP device in log")) := by
  unfold getVpnData
  rw [hroute, deviceLoop_none env.logReads hlog (deviceWaitMaxRetries + 1) 0]
  simp

end Fw

/-- C4 (amended): the orchestrator re-reads the full tunnel log at most
`DEVICE_WAIT_MAX_RETRIES + 1 = 6` times (an initial attempt plus five
retries), with the fixed `DEVICE_WAIT_SLEEP_SECONDS` delay before each
read; when no interface-assignment line ever matches, all six reads
happen and the run then fails fatally at once — the remaining candidates
are NOT tried, because `tools.error(..., fatal_error=True)` exits the
process. -/
theorem claim_C4_device_timeout_aborts_run (opts : Start.StartOpts)
    (cfg : Start.ServerCfg) (env : Start.StartEnv) (fenv : Fw.FwEnv)
    (s : Server) (rest : List Server) (lan dev : String) (p : Int)
    (hdry : opts.dryrun = false) (hwait : opts.wait = false)
    (hfw1 : opts.noFirewall = false) (hfw2 : cfg.disableFirewall = false)
    (hpid0 : env.initialPid = none) (hrc : env.launchRc 0 = 0)
    (hpid : env.pidAfter 0 = some p)
    (hroute : Fw.scanRoute fenv.routeLines = some (lan, dev))
    (hlog : ∀ k, Fw.findDeviceInLines (fenv.logReads k) = none) :
    Start.startExecuteReal opts cfg env fenv (s :: rest) =
      ([Start.Ev.deleteMarkers, Start.Ev.appendRecent s.name, Start.Ev.launch s.name] ++
         (Fw.FwEv.routeRead :: Fw.allReadsEvs 0 (Fw.deviceWaitMaxRetries + 1)).map Start.Ev.fwEv,
       .error (.fatalExit "Failed to find TUN/TAP device in log"))
  ∧ (∀ (fenv2 : Fw.FwEnv) (dr : Bool) (path : String),
      ((Fw.getVpnData fenv2 dr path).1.countP Fw.isLogRead) ≤
        Fw.deviceWaitMaxRetries + 1) := by
  refine ⟨?_, fun fenv2 dr path => Fw.getVpnData_reads_le fenv2 dr path⟩
  have hfwr : Start.fwStepReal fenv opts cfg s =
      (Fw.FwEv.routeRead :: Fw.allReadsEvs 0 (Fw.deviceWaitMaxRetries + 1),
       .error (.fatalExit "Failed to find TUN/TAP device in log")) := by
    unfold Start.fwStepReal Fw.startFirewall
    rw [hdry, Fw.getVpnData_no_device fenv s.config_path lan dev hroute hlog]
  unfold Start.startExecuteReal Start.startExecute
  rw [hpid0]
  simp only [List.isEmpty_cons, Bool.false_eq_true, if_false, Start.startAttempts,
    hrc, if_pos, hwait, hdry, hpid, hfw1, hfw2, hfwr]
  simp [Start.startAttempts, hrc, hwait, hdry, hpid, hfw1, hfw2, hfwr]

/-- C4 counterexample: with two candidates and a log that never announces
a device, the log is read the full six times, the run exits fatally, and
the second candidate is never attempted — contradicting the claim that
the next candidate is tried when the list is not exhausted. -/
theorem claim_C4_counterexample :
    Fw.findDeviceInLines (fenvNoDevice.logReads 0) = none
  ∧ ((Start.startExecuteReal opts0 cfg0 env0 fenvNoDevice [srvA, srvB]).1.countP
       (fun e => match e with | Start.Ev.fwEv (Fw.FwEv.logRead _) => true | _ => false)) = 6
  ∧ (Start.startExecuteReal opts0 cfg0 env0 fenvNoDevice [srvA, srvB]).2 =
      .error (.fatalExit "Failed to find TUN/TAP device in log")
  ∧ Start.Ev.launch srvB.name ∉
      (Start.startExecuteReal opts0 cfg0 env0 fenvNoDevice [srvA, srvB]).1
  ∧ Start.Ev.appendRecent srvB.name ∉
      (Start.startExecuteReal opts0 cfg0 env0 fenvNoDevice [srvA, srvB]).1 := by
  decide

/-- Witness for C4 (amended) at concrete inputs. -/
theorem claim_C4_device_timeout_aborts_run_witness :
    opts0.dryrun = false ∧ opts0.wait = false ∧ opts0.noFirewall = false
  ∧ cfg0.disableFirewall = false ∧ env0.initialPid = none
  ∧ env0.launchRc 0 = 0 ∧ env0.pidAfter 0 = some 314
  ∧ Fw.scanRoute fenvNoDevice.routeLines = some ("10.0.0.1", "eth0")
  ∧ (∀ k, Fw.findDeviceInLines (fenvNoDevice.logReads k) = none)
  ∧ (Start.startExecuteReal opts0 cfg0 env0 fenvNoDevice [srvA, srvB] =
      ([Start.Ev.deleteMarkers, Start.Ev.appendRecent srvA.name, Start.Ev.launch srvA.name] ++
         (Fw.FwEv.routeRead :: Fw.allReadsEvs 0 (Fw.deviceWaitMaxRetries + 1)).map Start.Ev.fwEv,
       .error (.fatalExit "Failed to find TUN/TAP device in log"))
     ∧ (∀ (fenv2 : Fw.FwEnv) (dr : Bool) (path : String),
        ((Fw.getVpnData fenv2 dr path).1.countP Fw.isLogRead) ≤
          Fw.deviceWaitMaxRetries + 1)) :=
  ⟨rfl, rfl, rfl, rfl, rfl, rfl, rfl, by decide, fun _ => rfl,
   claim_C4_device_timeout_aborts_run opts0 cfg0 env0 fenvNoDevice srvA [srvB]
     "10.0.0.1" "eth0" 314 rfl rfl rfl rfl rfl rfl rfl (by decide)
     (fun _ => rfl)⟩

/-- C2: evaluation of the firewall step at a concrete input whose parsed
remote address is non-empty (`remote 1.2.3.4 1198`).  The issued
packet-filter command sequence does begin with the reset commands (accept
policies, then clear), but it also ends there: the step then evaluates
`tools.get_sshd_port()`, which raises `AttributeError` because
`lib/tools.py` defines no such function, so the three default-deny
policies and every allow rule — including the control-channel rule — are
never issued.  Independently, the (dead) call `firewall.start(...)` on
`lib/provider.py` line 181 passes six positional arguments to the
five-parameter `firewall.start`, and the control-channel rule inside
`firewall.start` targets `lan_addr`, not the remote address, as the
`firewallStartCmds` definition records. -/
theorem claim_C2_firewall_step_crashes_after_reset :
    (Fw.getVpnData fenvDevice false "pia.ovpn").2 =
      .ok ⟨some "10.0.0.1", some "eth0", some "tun0",
           some "1.2.3.4", some "1198", some "udp"⟩
  ∧ Fw.startFirewall fenvDevice false "pia.ovpn" false false false =
      ([Fw.FwEv.routeRead, Fw.FwEv.sleepSecs 0, Fw.FwEv.logRead 0,
        Fw.FwEv.readVpnConfig "pia.ovpn"] ++
         Fw.iptablesResetCmds.map Fw.FwEv.iptables,
       .error (.attributeError "module tools has no attribute get_sshd_port"))
  ∧ (Fw.startFirewall fenvDevice false "pia.ovpn" false false false).1.filterMap
      fwIptablesArgs = Fw.iptablesResetCmds
  ∧ Fw.toolStartFirewallCallArgCount ≠ Fw.firewallStartParamCount
  ∧ (Fw.firewallStartCmds "eth0" "tun0" "10.0.0.100" "1198" "udp").take 3 =
      [["--policy", "OUTPUT", "DROP"],
       ["--policy", "INPUT", "DROP"],
       ["--policy", "FORWARD", "DROP"]] := by
  decide

/-- C5 counterexample: with a configuration file containing no `remote`
line at all, `get_vpn_data` returns successfully with the remote address
and port left unset — no fatal error — and the firewall step then
proceeds to issue the reset commands (the firewall is touched), refuting
the claim that deriving firewall parameters fails fatally before the
firewall is touched whenever the remote line is missing or malformed. -/
theorem claim_C5_counterexample :
    (Fw.getVpnData fenvNoRemote false "x.ovpn").2 =
      .ok ⟨some "10.0.0.1", some "eth0", some "tun0", none, none, some "udp"⟩
  ∧ (Fw.startFirewall fenvNoRemote false "x.ovpn" false false false).1.filterMap
      fwIptablesArgs = Fw.iptablesResetCmds := by
  decide

theorem parseVpnConfig_no_remote_aux (lines : List String)
    (h : ∀ l ∈ lines, Fw.matchRemoteLine l = none) :
    ∀ pr : Option String,
      (Fw.parseVpnConfig (none, none, pr) lines).1 = none
    ∧ (Fw.parseVpnConfig (none, none, pr) lines).2.1 = none := by
  induction lines with
  | nil => intro pr; exact ⟨rfl, rfl⟩
  | cons l ls ih =>
    intro pr
    have hl : Fw.matchRemoteLine l = none := h l (List.mem_cons_self l ls)
    have hrest : ∀ l2 ∈ ls, Fw.matchRemoteLine l2 = none :=
      fun l2 hm => h l2 (List.mem_cons_of_mem l hm)
    cases hp : Fw.matchProtoLine l with
    | none => simpa [Fw.parseVpnConfig, hl, hp] using ih hrest pr
    | some pr2 => simpa [Fw.parseVpnConfig, hl, hp] using ih hrest (some pr2)

/-- C5 (amended): a missing or malformed `remote` line is not fatal when
deriving firewall parameters: the configuration scan of
`Tool.get_vpn_data` simply leaves the remote address and port unset
(`None`) and returns normally; the fatal missing-remote check lives only
in `openvpn.Server.remote`, which the firewall step does not use. -/
theorem claim_C5_missing_remote_not_fatal (lines : List String)
    (h : ∀ l ∈ lines, Fw.matchRemoteLine l = none) :
    (Fw.parseVpnConfig (none, none, none) lines).1 = none
  ∧ (Fw.parseVpnConfig (none, none, none) lines).2.1 = none :=
  parseVpnConfig_no_remote_aux lines h none

/-- Witness for C5 (amended) at a concrete configuration. -/
theorem claim_C5_missing_remote_not_fatal_witness :
    (∀ l ∈ (["client", "dev tun", "proto udp"] : List String),
      Fw.matchRemoteLine l = none)
  ∧ ((Fw.parseVpnConfig (none, none, none) ["client", "dev tun", "proto udp"]).1 = none
     ∧ (Fw.parseVpnConfig (none, none, none) ["client", "dev tun", "proto udp"]).2.1 = none) :=
  ⟨by decide, claim_C5_missing_remote_not_fatal ["client", "dev tun", "proto udp"] (by decide)⟩

/-- C6: evaluation of the persistence path at a failing input.  A state
file holding `recent_servers = [CA Toronto]` is loaded and then discarded
by the unconditional `self.data = Data()` at the end of
`PersistentJSONData.__init__`, so the recency merge always sees an empty
recent list; `save()` raises `NameError` (undefined `create_directory`)
whenever there is something to flush; and the start command's cleanup
dispatch never runs (`command.py` tests `hasattr(module, 'setup')`, which
`start.py` lacks), so nothing is ever flushed back.  The final conjunct
records the true part of the claim: each attempted candidate is appended
to the recency list before its launch. -/
theorem claim_C6_recency_persistence_broken :
    Persist.persistentJSONDataInit (some [("recent_servers", JVal.jstrs ["CA Toronto"])]) = []
  ∧ Persist.pjdSave true = .error (.nameError "create_directory")
  ∧ Persist.subCommandCleanupRuns Persist.startModuleHasSetup = false
  ∧ (Start.startAttempts opts0 cfg0 env0 (Start.fwStepReal fenvDevice opts0 cfg0)
       0 [srvA]).1.take 2 =
      [Start.Ev.appendRecent srvA.name, Start.Ev.launch srvA.name] := by
  decide

/-- C10: every access to the provider's server list raises `TypeError`:
`Tool.openvpn_servers` passes one positional argument to
`PIAProvider.get_servers`, which accepts none — and even a correctly
arity-matched call would raise `AttributeError`, because the body
dereferences `self.saved_state`, an attribute the provider object does
not define.  Hence no invocation can produce a candidate list. -/
theorem claim_C10_get_servers_always_fails (recentNames : List String) :
    Catalog.openvpnServers recentNames =
      .error (.typeError "get_servers takes 1 positional argument but 2 were given")
  ∧ Catalog.callGetServers Catalog.getServersParamCount =
      .error (.attributeError "PIAProvider object has no attribute saved_state") := by
  exact ⟨rfl, by decide⟩

/-- C8: evaluation of `get_forwarded_port` at the failing inputs.  When
the identifier file exists and no new identity is requested, the
persisted identifier is loaded and used (third conjunct — the claim's
first half is right).  In every other case — file absent, or new identity
requested — the claim says a fresh 256-bit hex identifier is persisted
before the network request; instead the persist call raises `TypeError`
(`open_output_file` has no `mkdir` parameter), so nothing is written and
no request is issued (first two conjuncts: the trace holds only the
sleep). -/
theorem claim_C8_fresh_identity_persist_crashes :
    PortFwd.getForwardedPort pfEnvGen false =
      ([PortFwd.PFEv.sleepSecs 2],
       .error (.typeError "open_output_file got an unexpected keyword argument mkdir"))
  ∧ PortFwd.getForwardedPort pfEnvLoad true =
      ([PortFwd.PFEv.sleepSecs 2],
       .error (.typeError "open_output_file got an unexpected keyword argument mkdir"))
  ∧ PortFwd.getForwardedPort pfEnvLoad false =
      ([PortFwd.PFEv.sleepSecs 2, PortFwd.PFEv.readIdFile,
        PortFwd.PFEv.httpGet (PortFwd.forwardingUrl "deadbeef"),
        PortFwd.PFEv.writePortFile 54321],
       .ok (some 54321)) := by
  decide

/-- C9: evaluation of the port-parsing stage.  A zero `port` value falls
through `if port:` and the function silently returns `None` — no error is
reported and nothing is persisted, against the claim (first conjunct: the
trace ends at the request, with no error-report and no port-file event).
A non-numeric value does raise `ValueError` in `int()`, but the `except`
handler formats the still-unbound variable `port` and therefore itself
raises `UnboundLocalError` instead of reporting the error (second
conjunct).  A positive value is persisted to the port marker file and
returned (third conjunct — that half of the claim is right). -/
theorem claim_C9_port_parse_divergence :
    PortFwd.getForwardedPort pfEnvZero false =
      ([PortFwd.PFEv.sleepSecs 2, PortFwd.PFEv.readIdFile,
        PortFwd.PFEv.httpGet (PortFwd.forwardingUrl "id0")], .ok none)
  ∧ PortFwd.getForwardedPort pfEnvBadPort false =
      ([PortFwd.PFEv.sleepSecs 2, PortFwd.PFEv.readIdFile,
        PortFwd.PFEv.httpGet (PortFwd.forwardingUrl "id0")],
       .error (.unboundLocalError "port"))
  ∧ PortFwd.getForwardedPort pfEnvGood false =
      ([PortFwd.PFEv.sleepSecs 2, PortFwd.PFEv.readIdFile,
        PortFwd.PFEv.httpGet (PortFwd.forwardingUrl "id0"),
        PortFwd.PFEv.writePortFile 2049], .ok (some 2049)) := by
  decide
